import Mathlib

/-!
Verification of the voice_bot repository (Flask voice-chat backend).

The definitions below are a shallow embedding of `src/app.py`,
`src/models.py` and `src/utils/openai_helper.py`.  Remote services
(Whisper, GPT, the two TTS backends) are modelled as oracles indexed by
the attempt number, so that the retry decorator's behaviour is visible.
Wall-clock concerns (`time.sleep`, timestamps, `processing_time`) are not
modelled; everything else follows the Python control flow.
-/

/-- Python `list[-n:]`: the suffix of at most `n` elements. -/
def lastN (n : Nat) (l : List α) : List α := l.drop (l.length - n)

/-! ## Content-type parsing (shared by `app.py` and `validate_audio_format`) -/

/-- Python `str.split(sep)` for a single-character separator. -/
def splitOnChar (sep : Char) : List Char → List (List Char)
  | [] => [[]]
  | c :: rest =>
    let r := splitOnChar sep rest
    if c = sep then [] :: r
    else
      match r with
      | [] => [[c]]
      | g :: gs => (c :: g) :: gs

/-- Python `str.strip()` restricted to ASCII-style whitespace. -/
def trimWs (l : List Char) : List Char :=
  ((l.dropWhile Char.isWhitespace).reverse.dropWhile Char.isWhitespace).reverse

/-- Python `str.strip('"')`. -/
def stripQuotes (l : List Char) : List Char :=
  ((l.dropWhile (· = '"')).reverse.dropWhile (· = '"')).reverse

/-- Whether `pat` occurs at the start of `l`. -/
def startsWithList (pat l : List Char) : Bool :=
  match pat, l with
  | [], _ => true
  | _ :: _, [] => false
  | p :: ps, c :: cs => p = c && startsWithList ps cs

/-- Python `pat in s`: substring containment. -/
def containsSub (pat : List Char) : List Char → Bool
  | [] => startsWithList pat []
  | c :: rest => startsWithList pat (c :: rest) || containsSub pat rest

/-- The content-type parsing done identically in `process_audio_route`
(`app.py`) and `validate_audio_format` (`openai_helper.py`): split on
`;`, the stripped first part is the base type; the codec is extracted
from the first later part containing `codecs=` (Python `split('=')[1]`
then `strip('"')`), and is `""` when absent (falsy, like Python `None`). -/
def parseContentType (ct : String) : String × String :=
  let contentParts := splitOnChar ';' ct.toList
  let baseType := trimWs (contentParts.headD [])
  let codecPart := contentParts.tail.filter (fun p => containsSub "codecs=".toList p)
  let codec :=
    match codecPart with
    | [] => ([] : List Char)
    | p :: _ => stripQuotes ((splitOnChar '=' p).getD 1 [])
  (String.mk baseType, String.mk codec)

/-! ## Validators -/

/-- The `allowed_types` dict of `process_audio_route`: `none` when the base
type is not a key; otherwise the expected codec (`None` for the wav
variants, `'opus'` for webm). -/
def routeCodecFor (baseType : String) : Option (Option String) :=
  if baseType = "audio/wav" then some none
  else if baseType = "audio/wave" then some none
  else if baseType = "audio/x-wav" then some none
  else if baseType = "audio/webm" then some (some "opus")
  else none

/-- The content-type checks of `process_audio_route` (`app.py`): reject an
unknown base type; with a truthy codec, reject unless it equals the
expected codec.  Returns the error message, or `none` on acceptance. -/
def routeValidateContentType (ct : String) : Option String :=
  let p := parseContentType ct
  match routeCodecFor p.1 with
  | none =>
    some ("Invalid audio format. Allowed types: audio/wav, audio/wave, audio/x-wav, audio/webm")
  | some expected =>
    if p.2 ≠ "" ∧ expected ≠ some p.2 then
      some ("Invalid codec. Expected " ++ expected.getD "none" ++ " for " ++ p.1)
    else none

/-- The `allowed_base_types` dict of `validate_audio_format`
(`openai_helper.py`): list of admissible codecs per base type. -/
def helperCodecsFor (baseType : String) : Option (List String) :=
  if baseType = "audio/wav" then some [""]
  else if baseType = "audio/wave" then some [""]
  else if baseType = "audio/x-wav" then some [""]
  else if baseType = "audio/webm" then some ["opus"]
  else none

/-- `validate_audio_format` from `openai_helper.py`: raises (errors) on an
unknown base type or on a truthy codec not admitted for the base type,
and returns `True` otherwise. -/
def validate_audio_format (ct : String) : Except String Bool :=
  let p := parseContentType ct
  match helperCodecsFor p.1 with
  | none => Except.error ("Unsupported audio format: " ++ ct)
  | some codecs =>
    if p.2 ≠ "" ∧ p.2 ∉ codecs then
      Except.error ("Unsupported codec: " ++ p.2 ++ " for format " ++ p.1)
    else Except.ok true

/-- Whether an `Except` is an error. -/
def exceptIsError : Except ε α → Bool
  | Except.error _ => true
  | Except.ok _ => false

/-! ## Base64 (Python `base64.b64encode(...).decode()`) -/

def b64Alphabet : List Char :=
  "ABCDEFGHIJKLMNOPQRSTUVWXYZabcdefghijklmnopqrstuvwxyz0123456789+/".toList

def b64Char (n : Nat) : Char := b64Alphabet.getD n 'A'

/-- RFC 4648 base64 of a byte list (each byte taken mod 256). -/
def b64encodeList : List Nat → List Char
  | [] => []
  | [b0] =>
    let v := (b0 % 256) * 65536
    [b64Char (v / 262144), b64Char (v / 4096 % 64), '=', '=']
  | [b0, b1] =>
    let v := (b0 % 256) * 65536 + (b1 % 256) * 256
    [b64Char (v / 262144), b64Char (v / 4096 % 64), b64Char (v / 64 % 64), '=']
  | b0 :: b1 :: b2 :: rest =>
    let v := (b0 % 256) * 65536 + (b1 % 256) * 256 + b2 % 256
    b64Char (v / 262144) :: b64Char (v / 4096 % 64) :: b64Char (v / 64 % 64) ::
      b64Char (v % 64) :: b64encodeList rest

def b64encode (bytes : List Nat) : String := String.mk (b64encodeList bytes)

/-- The `data:audio/mp3;base64,` wrapping used by both branches of
`text_to_speech`. -/
def audioDataUri (bytes : List Nat) : String :=
  "data:audio/mp3;base64," ++ b64encode bytes

/-! ## The retry decorator (`retry_on_exception` in `openai_helper.py`) -/

/-- The loop body of `retry_on_exception`: iterate over the remaining
attempt indices; return on the first success, otherwise remember the
exception and continue; raise the last exception (`none` if no attempt
ran) when attempts are exhausted.  Also counts the calls made. -/
def retryLoop (f : Nat → Except ε α) : List Nat → Option ε → Except (Option ε) α × Nat
  | [], last => (Except.error last, 0)
  | a :: rest, _last =>
    match f a with
    | Except.ok v => (Except.ok v, 1)
    | Except.error e =>
      let r := retryLoop f rest (some e)
      (r.1, r.2 + 1)

/-- `retry_on_exception(retries, delay)` applied to a body `f` whose
outcome may depend on the attempt number (the fixed `delay` between
attempts is wall-clock time and is not modelled). -/
def retry_on_exception (retries : Nat) (f : Nat → Except ε α) : Except (Option ε) α :=
  (retryLoop f (List.range retries) none).1

/-- How many times the wrapped body is invoked by `retry_on_exception`. -/
def retryAttemptCount (retries : Nat) (f : Nat → Except ε α) : Nat :=
  (retryLoop f (List.range retries) none).2

/-! ## The pipeline (`openai_helper.py` helpers and `app.py` route) -/

inductive Role
  | user
  | assistant
  | system
deriving DecidableEq

structure Msg where
  role : Role
  content : String
deriving DecidableEq

/-- The three remote backends, as attempt-indexed oracles. -/
structure Backends where
  whisper : Nat → Except String String
  gpt : List Msg → Nat → Except String String
  openaiTTS : String → Nat → Except String (List Nat)
  gtts : String → Nat → Except String (List Nat)

/-- `system_messages.get(category, system_messages['general'])` from
`generate_response`. -/
def systemMessageFor (category : String) : String :=
  if category = "soft_skills" then
    "You are an expert in soft skills and communication coaching. Always respond in English."
  else if category = "interview" then
    "You are an experienced interview coach and career counselor. Always respond in English."
  else if category = "personality" then
    "You are a personality development coach focusing on personal growth. Always respond in English."
  else
    "You are a helpful life coach providing general advice and guidance. Always respond in English."

/-- The message list assembled by `generate_response`: system prompt,
then the stored history, then the new user turn. -/
def buildMessages (category : String) (history : List Msg) (text : String) : List Msg :=
  Msg.mk Role.system (systemMessageFor category) :: history ++ [Msg.mk Role.user text]

/-- One attempt of the body of `process_audio`: validate the declared
format (a failure is re-raised and wrapped by the outer handler), then
call Whisper; a Whisper failure is wrapped as in the source. -/
def process_audio_attempt (B : Backends) (ct : String) (attempt : Nat) : Except String String :=
  match validate_audio_format ct with
  | Except.error e => Except.error ("Audio processing failed: " ++ e)
  | Except.ok _ =>
    match B.whisper attempt with
    | Except.ok t => Except.ok t
    | Except.error e =>
      Except.error ("Audio processing failed: " ++ ("Transcription failed: " ++ e))

/-- `process_audio` from `openai_helper.py`: its body under
`@retry_on_exception(retries=3, delay=1)`. -/
def process_audio (B : Backends) (ct : String) : Except (Option String) String :=
  retry_on_exception 3 (process_audio_attempt B ct)

/-- One attempt of the body of `generate_response`, with its two layers
of exception wrapping. -/
def generate_response_attempt (B : Backends) (text category : String) (history : List Msg)
    (attempt : Nat) : Except String String :=
  match B.gpt (buildMessages category history text) attempt with
  | Except.ok r => Except.ok r
  | Except.error e =>
    Except.error ("Error generating response: " ++ ("GPT response generation failed: " ++ e))

/-- `generate_response` from `openai_helper.py`: its body under the retry
decorator. -/
def generate_response (B : Backends) (text category : String) (history : List Msg) :
    Except (Option String) String :=
  retry_on_exception 3 (generate_response_attempt B text category history)

/-- One attempt of the body of `text_to_speech`: the OpenAI branch fires
only on the exact string `'openai'`; every other `voice_model` takes the
gTTS branch.  Both wrap the bytes as a base64 `data:` URI. -/
def text_to_speech_attempt (B : Backends) (text voiceModel : String) (attempt : Nat) :
    Except String String :=
  if voiceModel = "openai" then
    match B.openaiTTS text attempt with
    | Except.ok bytes => Except.ok (audioDataUri bytes)
    | Except.error e =>
      Except.error ("Text-to-speech conversion failed: " ++ ("OpenAI TTS failed: " ++ e))
  else
    match B.gtts text attempt with
    | Except.ok bytes => Except.ok (audioDataUri bytes)
    | Except.error e => Except.error ("Text-to-speech conversion failed: " ++ e)

/-- `text_to_speech` from `openai_helper.py`: its body under the retry
decorator. -/
def text_to_speech (B : Backends) (text voiceModel : String) : Except (Option String) String :=
  retry_on_exception 3 (text_to_speech_attempt B text voiceModel)

inductive Stage
  | transcribe
  | respond
  | synthesize
deriving DecidableEq

/-- What the inner `process_request` coroutine of `app.py` hands back:
either the `(text, response, audio_response)` triple, or the stage-tagged
error response `(jsonify({'error': ...}), 500)` built in the stage's
`except` handler. -/
inductive PipelineOut
  | success (text response audio : String)
  | failure (stage : Stage) (msg : String)
deriving DecidableEq

/-- Python `str(e)` where the raised value may be the decorator's
`last_exception` (never `None` when at least one attempt ran). -/
def errMsgOf : Option String → String
  | some e => e
  | none => "None"

/-- The async `process_request` of `app.py`: transcribe, then respond,
then synthesize, each guarded by an `except` handler that stops the
coroutine with a stage-tagged error payload.  The second component
records which stages were entered. -/
def process_request (B : Backends) (ct category voiceModel : String) (history : List Msg) :
    PipelineOut × List Stage :=
  match process_audio B ct with
  | Except.error e =>
    (PipelineOut.failure Stage.transcribe ("Error processing audio: " ++ errMsgOf e),
     [Stage.transcribe])
  | Except.ok text =>
    match generate_response B text category history with
    | Except.error e =>
      (PipelineOut.failure Stage.respond ("Error generating response: " ++ errMsgOf e),
       [Stage.transcribe, Stage.respond])
    | Except.ok response =>
      match text_to_speech B response voiceModel with
      | Except.error e =>
        (PipelineOut.failure Stage.synthesize
          ("Error converting text to speech: " ++ errMsgOf e),
         [Stage.transcribe, Stage.respond, Stage.synthesize])
      | Except.ok audio =>
        (PipelineOut.success text response audio,
         [Stage.transcribe, Stage.respond, Stage.synthesize])

/-- The history update of `app.py` on a fully successful request:
append the user turn and the assistant turn, keep the last 10 entries
(`history[-10:]`). -/
def updateChatHistory (history : List Msg) (text response : String) : List Msg :=
  lastN 10 (history ++ [Msg.mk Role.user text, Msg.mk Role.assistant response])

/-- The request data the route inspects: presence and truthiness of the
uploaded file, `request.content_length`, the declared content type, and
the two form fields. -/
structure RequestIn where
  hasAudio : Bool
  audioTruthy : Bool
  contentLength : Nat
  contentType : String
  category : String
  voiceModel : String
deriving DecidableEq

/-- The JSON-visible outcome of `process_audio_route` (the wall-clock
`processing_time` field is not modelled). -/
structure RouteResult where
  status : Nat
  errorMsg : Option String
  text : Option String
  response : Option String
  audio : Option String
deriving DecidableEq

/-- `max_size = 10 * 1024 * 1024` in `process_audio_route`. -/
def routeMaxSize : Nat := 10 * 1024 * 1024

/-- The message of the `ValueError` raised when the route unpacks the
2-tuple `(jsonify(...), 500)` returned by a failed `process_request`
into `text, response, audio_response`; it is caught by the route's outer
handler and reported with an `Unexpected error:` prefix. -/
def unpackErrorMsg : String :=
  "Unexpected error: not enough values to unpack (expected 3, got 2)"

/-- `process_audio_route` from `app.py`.  Returns the JSON-visible
result, the session `chat_history` after the request, and the list of
pipeline stages that were entered. -/
def process_audio_route (req : RequestIn) (B : Backends) (history : List Msg) :
    RouteResult × List Msg × List Stage :=
  if req.hasAudio = false then
    (RouteResult.mk 400 (some "No audio file provided") none none none, history, [])
  else if req.audioTruthy = false then
    (RouteResult.mk 400 (some "Empty audio file") none none none, history, [])
  else if routeMaxSize < req.contentLength then
    (RouteResult.mk 400 (some "File too large") none none none, history, [])
  else
    match routeValidateContentType req.contentType with
    | some e => (RouteResult.mk 400 (some e) none none none, history, [])
    | none =>
      match process_request B req.contentType req.category req.voiceModel history with
      | (PipelineOut.success t r a, tr) =>
        (RouteResult.mk 200 none (some t) (some r) (some a),
         updateChatHistory history t r, tr)
      | (PipelineOut.failure _ _, tr) =>
        (RouteResult.mk 500 (some unpackErrorMsg) none none none, history, tr)

/-- The stage list produced when the pipeline fails at stage `s`: the
failing stage and those before it, never a later one. -/
def stagesUpTo : Stage → List Stage
  | Stage.transcribe => [Stage.transcribe]
  | Stage.respond => [Stage.transcribe, Stage.respond]
  | Stage.synthesize => [Stage.transcribe, Stage.respond, Stage.synthesize]

/-! ## History over many turns -/

/-- The flat entry sequence of a list of successful turns
`(transcript, reply)`. -/
def turnEntries (ts : List (String × String)) : List Msg :=
  (ts.map (fun t => [Msg.mk Role.user t.1, Msg.mk Role.assistant t.2])).flatten

/-- The session history after a sequence of successful route turns,
starting from the empty history. -/
def runTurns (ts : List (String × String)) : List Msg :=
  ts.foldl (fun h t => updateChatHistory h t.1 t.2) []

/-! ## Chunk aggregator -/

/-- Modelled from the spec: the raw chunk of the streaming channel,
`{audio bytes, timestamp, isLastChunk}` (spec section 3, AudioChunk);
the streaming aggregator itself is absent from `src/`. -/
structure AudioChunk where
  bytes : List Nat
  timestamp : Nat
  isLast : Bool
deriving DecidableEq

/-- Modelled from the spec: the 100-byte noise threshold of section 4.2. -/
def minChunkBytes : Nat := 100

/-- Modelled from the spec: the 5-chunk flush threshold of section 4.2. -/
def flushThreshold : Nat := 5

/-- Modelled from the spec: the Chunk Aggregator of section 4.2, which is
absent from `src/`.  Feeding a chunk to the buffer: an under-sized chunk
is rejected without touching state; otherwise the chunk is appended, and
a flush (returning the concatenation of the buffered bytes in arrival
order) fires when the chunk is marked last (buffer cleared) or the
buffer reaches the threshold (only the most recent fragment retained). -/
def feedChunk (pending : List AudioChunk) (c : AudioChunk) :
    List AudioChunk × Option (List Nat) :=
  if c.bytes.length < minChunkBytes then (pending, none)
  else
    let buf := pending ++ [c]
    let aggregate := (buf.map AudioChunk.bytes).flatten
    if c.isLast then ([], some aggregate)
    else if flushThreshold ≤ buf.length then ([c], some aggregate)
    else (buf, none)

/-! ## Concrete fixtures for witnesses -/

/-- Backends that always succeed, replaying the end-to-end scenario of
spec section 8 (speech bytes `XY`). -/
def okBackends : Backends :=
  Backends.mk
    (fun _ => Except.ok "Tell me about yourself")
    (fun _ _ => Except.ok "Sure, let's start...")
    (fun _ _ => Except.ok [88, 89])
    (fun _ _ => Except.ok [88, 89])

/-- Backends whose transcription fails on every attempt. -/
def failBackends : Backends :=
  Backends.mk
    (fun _ => Except.error "boom")
    (fun _ _ => Except.ok "Sure, let's start...")
    (fun _ _ => Except.ok [88, 89])
    (fun _ _ => Except.ok [88, 89])

/-- A well-formed wav upload request. -/
def wavRequest : RequestIn :=
  RequestIn.mk true true 1000 "audio/wav" "interview" "default"

/-- A well-formed webm upload request with no codec parameter. -/
def webmRequest : RequestIn :=
  RequestIn.mk true true 1000 "audio/webm" "general" "default"

/-- A request with no audio file attached. -/
def noAudioRequest : RequestIn :=
  RequestIn.mk false true 1000 "audio/wav" "general" "default"

/-- A big buffered chunk for the aggregator witness. -/
def bigChunk : AudioChunk := AudioChunk.mk (List.replicate 100 7) 0 false

/-- A four-chunk pending buffer. -/
def pendingFour : List AudioChunk := List.replicate 4 bigChunk

/-- The fifth, non-final chunk, which triggers a flush. -/
def fifthChunk : AudioChunk := AudioChunk.mk (List.replicate 100 9) 4 false

/-- The aggregate emitted by that flush. -/
def flushAggregate : List Nat :=
  ((pendingFour ++ [fifthChunk]).map AudioChunk.bytes).flatten

/-! ## List-suffix lemmas -/

lemma length_lastN (n : Nat) (l : List α) : (lastN n l).length ≤ n := by
  simp only [lastN, List.length_drop]
  omega

lemma lastN_append_lastN (n : Nat) (xs ys : List α) :
    lastN n (lastN n xs ++ ys) = lastN n (xs ++ ys) := by
  simp only [lastN, List.drop_append_eq_append_drop, List.length_append, List.length_drop,
    List.drop_drop]
  congr 1
  · congr 1
    omega
  · congr 1
    omega

lemma runTurns_eq (ts : List (String × String)) : runTurns ts = lastN 10 (turnEntries ts) := by
  induction ts using List.reverseRecOn with
  | nil => rfl
  | append_singleton xs x ih =>
    have hstep : runTurns (xs ++ [x]) = updateChatHistory (runTurns xs) x.1 x.2 := by
      simp [runTurns, List.foldl_append]
    rw [hstep, ih]
    simp only [updateChatHistory, turnEntries, List.map_append, List.flatten_append]
    rw [lastN_append_lastN]
    simp

/-! ## Retry lemmas -/

lemma retry3_ok_first (f : Nat → Except ε α) (v : α) (h : f 0 = Except.ok v) :
    retry_on_exception 3 f = Except.ok v := by
  have hr : List.range 3 = [0, 1, 2] := rfl
  unfold retry_on_exception
  rw [hr]
  simp [retryLoop, h]

lemma retryLoop_ok_inv (f : Nat → Except ε α) (as : List Nat) (last : Option ε) (v : α)
    (h : (retryLoop f as last).1 = Except.ok v) : ∃ n, f n = Except.ok v := by
  induction as generalizing last with
  | nil => simp [retryLoop] at h
  | cons a rest ih =>
    simp only [retryLoop] at h
    cases hf : f a with
    | ok w =>
      simp only [hf, Except.ok.injEq] at h
      exact ⟨a, by rw [hf, h]⟩
    | error e =>
      simp only [hf] at h
      exact ih (some e) h

lemma text_to_speech_attempt_ok_inv (B : Backends) (text voiceModel : String) (n : Nat)
    (a : String) (h : text_to_speech_attempt B text voiceModel n = Except.ok a) :
    ∃ bytes, (B.openaiTTS text n = Except.ok bytes ∨ B.gtts text n = Except.ok bytes)
      ∧ a = audioDataUri bytes := by
  unfold text_to_speech_attempt at h
  split at h
  · cases ho : B.openaiTTS text n with
    | ok bytes =>
      simp only [ho, Except.ok.injEq] at h
      exact ⟨bytes, Or.inl rfl, h.symm⟩
    | error e => simp [ho] at h
  · cases hg : B.gtts text n with
    | ok bytes =>
      simp only [hg, Except.ok.injEq] at h
      exact ⟨bytes, Or.inr rfl, h.symm⟩
    | error e => simp [hg] at h

lemma text_to_speech_ok_inv (B : Backends) (text voiceModel a : String)
    (h : text_to_speech B text voiceModel = Except.ok a) :
    ∃ n bytes, (B.openaiTTS text n = Except.ok bytes ∨ B.gtts text n = Except.ok bytes)
      ∧ a = audioDataUri bytes := by
  unfold text_to_speech retry_on_exception at h
  obtain ⟨n, hn⟩ := retryLoop_ok_inv (text_to_speech_attempt B text voiceModel)
    (List.range 3) none a h
  obtain ⟨bytes, hsrc, hshape⟩ := text_to_speech_attempt_ok_inv B text voiceModel n a hn
  exact ⟨n, bytes, hsrc, hshape⟩

/-! ## Claim theorems -/

/-- C1: for every sequence of successful turns appended via the
`/process-audio` route, after every append the session's `chat_history`
has length at most 10, and the retained entries are exactly the most
recent appended entries in their original order (oldest evicted
first). -/
theorem chatHistory_cap_and_recent (ts : List (String × String)) :
    (runTurns ts).length ≤ 10 ∧ runTurns ts = lastN 10 (turnEntries ts) := by
  refine ⟨?_, runTurns_eq ts⟩
  rw [runTurns_eq ts]
  exact length_lastN 10 (turnEntries ts)

/-- C2: when a pipeline stage fails after exhausting its retries, the
later stages are never entered and the session's `chat_history` is left
unchanged; the history update runs only after all three stages
succeed. -/
theorem stage_failure_aborts_and_preserves_history
    (req : RequestIn) (B : Backends) (history : List Msg) (s : Stage) (m : String)
    (tr : List Stage)
    (hfail : process_request B req.contentType req.category req.voiceModel history
      = (PipelineOut.failure s m, tr)) :
    tr = stagesUpTo s ∧ (process_audio_route req B history).2.1 = history := by
  constructor
  · unfold process_request at hfail
    cases hpa : process_audio B req.contentType with
    | error e =>
      simp only [hpa, Prod.mk.injEq, PipelineOut.failure.injEq] at hfail
      obtain ⟨⟨hs, -⟩, htr⟩ := hfail
      subst hs
      subst htr
      rfl
    | ok text =>
      simp only [hpa] at hfail
      cases hgr : generate_response B text req.category history with
      | error e =>
        simp only [hgr, Prod.mk.injEq, PipelineOut.failure.injEq] at hfail
        obtain ⟨⟨hs, -⟩, htr⟩ := hfail
        subst hs
        subst htr
        rfl
      | ok response =>
        simp only [hgr] at hfail
        cases hts : text_to_speech B response req.voiceModel with
        | error e =>
          simp only [hts, Prod.mk.injEq, PipelineOut.failure.injEq] at hfail
          obtain ⟨⟨hs, -⟩, htr⟩ := hfail
          subst hs
          subst htr
          rfl
        | ok audio =>
          simp only [hts] at hfail
          simp at hfail
  · unfold process_audio_route
    split
    · rfl
    · split
      · rfl
      · split
        · rfl
        · split
          · rfl
          · rw [hfail]

/-- Witness for C2: with backends whose transcription always fails, the
trace stops at the transcribe stage and the (empty) history is
untouched. -/
theorem stage_failure_aborts_witness :
    [Stage.transcribe] = stagesUpTo Stage.transcribe
      ∧ (process_audio_route wavRequest failBackends []).2.1 = ([] : List Msg) :=
  stage_failure_aborts_and_preserves_history wavRequest failBackends []
    Stage.transcribe
    "Error processing audio: Audio processing failed: Transcription failed: boom"
    [Stage.transcribe] rfl

/-- C3: the retry wrapper makes at most 3 attempts; a body failing on
attempts 1 and 2 and succeeding on attempt 3 yields the success after
exactly 3 calls, and a body failing on all 3 attempts raises the last
exception after exactly 3 calls.  `process_request` then builds the
stage-tagged error payload, but the route's 3-way unpacking of the
2-tuple error return raises a `ValueError`, so the caller receives the
generic unpack message with status 500 instead of the stage tag. -/
theorem retry_semantics_and_lost_stage_tag :
    retry_on_exception 3
        (fun n => if n = 2 then Except.ok "v" else Except.error ("e" ++ Nat.repr n))
      = Except.ok "v"
    ∧ retryAttemptCount 3
        (fun n => if n = 2 then Except.ok "v" else Except.error ("e" ++ Nat.repr n)) = 3
    ∧ retry_on_exception 3
        (fun n => (Except.error ("e" ++ Nat.repr n) : Except String String))
      = Except.error (some "e2")
    ∧ retryAttemptCount 3
        (fun n => (Except.error ("e" ++ Nat.repr n) : Except String String)) = 3
    ∧ (process_request failBackends "audio/wav" "general" "default" []).1
      = PipelineOut.failure Stage.transcribe
          "Error processing audio: Audio processing failed: Transcription failed: boom"
    ∧ (process_audio_route wavRequest failBackends []).1.status = 500
    ∧ (process_audio_route wavRequest failBackends []).1.errorMsg = some unpackErrorMsg :=
  ⟨rfl, rfl, rfl, rfl, rfl, rfl, rfl⟩

/-- C4: on a fully successful request the session history becomes the old
history plus exactly a user entry holding the transcript and then an
assistant entry holding the reply, re-truncated to the 10-entry cap, and
nothing else. -/
theorem success_appends_two_entries_then_truncates
    (req : RequestIn) (B : Backends) (history : List Msg) (t r a : String) (tr : List Stage)
    (h1 : req.hasAudio = true) (h2 : req.audioTruthy = true)
    (h3 : req.contentLength ≤ routeMaxSize)
    (h4 : routeValidateContentType req.contentType = none)
    (hp : process_request B req.contentType req.category req.voiceModel history
      = (PipelineOut.success t r a, tr)) :
    (process_audio_route req B history).2.1
      = lastN 10 (history ++ [Msg.mk Role.user t, Msg.mk Role.assistant r]) := by
  have hlt : ¬ (routeMaxSize < req.contentLength) := Nat.not_lt.mpr h3
  simp [process_audio_route, h1, h2, hlt, h4, hp, updateChatHistory]

/-- Witness for C4: the end-to-end wav scenario appends the user and
assistant turns to the empty history. -/
theorem success_appends_witness :
    (process_audio_route wavRequest okBackends []).2.1
      = lastN 10 ([] ++ [Msg.mk Role.user "Tell me about yourself",
          Msg.mk Role.assistant "Sure, let's start..."]) :=
  success_appends_two_entries_then_truncates wavRequest okBackends []
    "Tell me about yourself" "Sure, let's start..." "data:audio/mp3;base64,WFk="
    [Stage.transcribe, Stage.respond, Stage.synthesize]
    rfl rfl (by decide) rfl rfl

/-- C5: both the route-level check and `validate_audio_format` reject
every upload whose parsed base media type is outside the accepted set,
and, when a codec parameter is present (truthy), reject unless it is the
container's expected codec (webm requires opus; the wav variants admit
no codec). -/
theorem validators_reject_bad_base_or_codec
    (ct base codec : String) (hp : parseContentType ct = (base, codec))
    (hbad : (base ≠ "audio/wav" ∧ base ≠ "audio/wave" ∧ base ≠ "audio/x-wav"
        ∧ base ≠ "audio/webm")
      ∨ (codec ≠ "" ∧ ¬(base = "audio/webm" ∧ codec = "opus"))) :
    (routeValidateContentType ct).isSome = true
      ∧ exceptIsError (validate_audio_format ct) = true := by
  simp only [routeValidateContentType, validate_audio_format, hp]
  rcases hbad with ⟨h1, h2, h3, h4⟩ | ⟨hc, hm⟩
  · simp [routeCodecFor, helperCodecsFor, h1, h2, h3, h4, exceptIsError]
  · by_cases hb1 : base = "audio/wav"
    · simp [routeCodecFor, helperCodecsFor, hb1, hc, exceptIsError]
    · by_cases hb2 : base = "audio/wave"
      · simp [routeCodecFor, helperCodecsFor, hb1, hb2, hc, exceptIsError]
      · by_cases hb3 : base = "audio/x-wav"
        · simp [routeCodecFor, helperCodecsFor, hb1, hb2, hb3, hc, exceptIsError]
        · by_cases hb4 : base = "audio/webm"
          · have hco : codec ≠ "opus" := fun h => hm ⟨hb4, h⟩
            simp [routeCodecFor, helperCodecsFor, hb1, hb2, hb3, hb4, hc, hco,
              Ne.symm hco, exceptIsError]
          · simp [routeCodecFor, helperCodecsFor, hb1, hb2, hb3, hb4, exceptIsError]

/-- Witness for C5: `audio/ogg` is rejected by both validators. -/
theorem validators_reject_witness :
    (routeValidateContentType "audio/ogg").isSome = true
      ∧ exceptIsError (validate_audio_format "audio/ogg") = true :=
  validators_reject_bad_base_or_codec "audio/ogg" "audio/ogg" "" rfl
    (Or.inl (by decide))

/-- C6: a request that is missing its file, has a falsy file, is
oversized, or declares a bad format is answered 400 with an error
message at once: no pipeline stage is entered (hence nothing is retried,
buffered, or sent to a remote service) and the history is untouched. -/
theorem validation_failure_short_circuits
    (req : RequestIn) (B : Backends) (history : List Msg)
    (hv : req.hasAudio = false ∨ req.audioTruthy = false
      ∨ routeMaxSize < req.contentLength
      ∨ (routeValidateContentType req.contentType).isSome = true) :
    (process_audio_route req B history).1.status = 400
      ∧ ((process_audio_route req B history).1.errorMsg).isSome = true
      ∧ (process_audio_route req B history).2.2 = ([] : List Stage)
      ∧ (process_audio_route req B history).2.1 = history := by
  unfold process_audio_route
  by_cases h1 : req.hasAudio = false
  · simp [h1]
  · by_cases h2 : req.audioTruthy = false
    · simp [h1, h2]
    · by_cases h3 : routeMaxSize < req.contentLength
      · simp [h1, h2, h3]
      · cases h4 : routeValidateContentType req.contentType with
        | some e => simp [h1, h2, h3, h4]
        | none =>
          rcases hv with h | h | h | h
          · exact absurd h h1
          · exact absurd h h2
          · exact absurd h h3
          · rw [h4] at h
            simp at h

/-- Witness for C6: a request without an audio file is rejected with 400
before any stage runs. -/
theorem validation_failure_witness :
    (process_audio_route noAudioRequest okBackends []).1.status = 400
      ∧ ((process_audio_route noAudioRequest okBackends []).1.errorMsg).isSome = true
      ∧ (process_audio_route noAudioRequest okBackends []).2.2 = ([] : List Stage)
      ∧ (process_audio_route noAudioRequest okBackends []).2.1 = ([] : List Msg) :=
  validation_failure_short_circuits noAudioRequest okBackends [] (Or.inl rfl)

/-- C7: every fully successful request returns status 200 with the
transcript, the reply, and an audio field that is the output bytes of
whichever speech backend served the request (either branch, on whatever
attempt succeeded) wrapped as a `data:audio/mp3;base64,` URI holding
their base64 encoding. -/
theorem success_returns_base64_data_uri
    (req : RequestIn) (B : Backends) (history : List Msg) (t r a : String) (tr : List Stage)
    (h1 : req.hasAudio = true) (h2 : req.audioTruthy = true)
    (h3 : req.contentLength ≤ routeMaxSize)
    (h4 : routeValidateContentType req.contentType = none)
    (hp : process_request B req.contentType req.category req.voiceModel history
      = (PipelineOut.success t r a, tr)) :
    (process_audio_route req B history).1
      = RouteResult.mk 200 none (some t) (some r) (some a)
      ∧ ∃ n bytes, (B.openaiTTS r n = Except.ok bytes ∨ B.gtts r n = Except.ok bytes)
          ∧ a = "data:audio/mp3;base64," ++ b64encode bytes := by
  constructor
  · have hlt : ¬ (routeMaxSize < req.contentLength) := Nat.not_lt.mpr h3
    simp [process_audio_route, h1, h2, hlt, h4, hp]
  · unfold process_request at hp
    cases hpa : process_audio B req.contentType with
    | error e => simp [hpa] at hp
    | ok text =>
      simp only [hpa] at hp
      cases hgr : generate_response B text req.category history with
      | error e => simp [hgr] at hp
      | ok response =>
        simp only [hgr] at hp
        cases hts : text_to_speech B response req.voiceModel with
        | error e => simp [hts] at hp
        | ok audio =>
          simp only [hts, Prod.mk.injEq, PipelineOut.success.injEq] at hp
          obtain ⟨⟨-, hr, ha⟩, -⟩ := hp
          subst hr
          obtain ⟨n, bytes, hsrc, hshape⟩ :=
            text_to_speech_ok_inv B response req.voiceModel audio hts
          exact ⟨n, bytes, hsrc, by rw [← ha]; exact hshape⟩

/-- Witness for C7: the end-to-end scenario of spec section 8; the
speech bytes `XY` come back as `data:audio/mp3;base64,` plus
`b64encode [88, 89]` (which evaluates to `WFk=`). -/
theorem success_data_uri_witness :
    (process_audio_route wavRequest okBackends []).1
      = RouteResult.mk 200 none (some "Tell me about yourself")
          (some "Sure, let's start...")
          (some ("data:audio/mp3;base64," ++ b64encode [88, 89])) :=
  (success_returns_base64_data_uri wavRequest okBackends [] "Tell me about yourself"
    "Sure, let's start..." ("data:audio/mp3;base64," ++ b64encode [88, 89])
    [Stage.transcribe, Stage.respond, Stage.synthesize]
    rfl rfl (by decide) rfl rfl).1

/-- C8: whenever feeding a chunk triggers a flush, the buffer afterwards
is empty if the chunk was final and is exactly the most recently fed
chunk otherwise; in either case at most one fragment is retained
(modelled from the spec, section 4.2). -/
theorem flush_clears_or_keeps_last_chunk
    (pending : List AudioChunk) (c : AudioChunk) (buf : List AudioChunk) (out : List Nat)
    (h : feedChunk pending c = (buf, some out)) :
    (c.isLast = true → buf = []) ∧ (c.isLast = false → buf = [c]) ∧ buf.length ≤ 1 := by
  simp only [feedChunk] at h
  split at h
  · simp at h
  · split at h
    next hlast =>
      simp only [Prod.mk.injEq] at h
      obtain ⟨hb, -⟩ := h
      subst hb
      exact ⟨fun _ => rfl, fun hf => absurd hlast (by simp [hf]), by simp⟩
    next hlast =>
      split at h
      · simp only [Prod.mk.injEq] at h
        obtain ⟨hb, -⟩ := h
        subst hb
        exact ⟨fun ht => absurd ht hlast, fun _ => rfl, by simp⟩
      · simp at h

/-- Witness for C8: a fifth non-final chunk triggers a flush that keeps
only that chunk in the buffer. -/
theorem flush_keeps_last_witness :
    (feedChunk pendingFour fifthChunk).1 = [fifthChunk]
      ∧ ((feedChunk pendingFour fifthChunk).1).length ≤ 1 := by
  have h := flush_clears_or_keeps_last_chunk pendingFour fifthChunk
    (feedChunk pendingFour fifthChunk).1 flushAggregate rfl
  exact ⟨h.2.1 rfl, h.2.2⟩

/-- C9: a bare `audio/webm` content type with no codec parameter passes
both the route-level check and `validate_audio_format`, and such an
upload runs the full pipeline (the transcribe stage is entered). -/
theorem webm_without_codec_reaches_pipeline :
    routeValidateContentType "audio/webm" = none
      ∧ validate_audio_format "audio/webm" = Except.ok true
      ∧ (process_audio_route webmRequest okBackends []).2.2
        = [Stage.transcribe, Stage.respond, Stage.synthesize]
      ∧ (process_audio_route webmRequest okBackends []).1.status = 200 :=
  ⟨rfl, rfl, rfl, rfl⟩

/-- C10: `text_to_speech` never rejects a `voice_model` value: any value
other than the exact string `openai` takes the gTTS branch, behaving
exactly like the default backend and raising no validation error. -/
theorem tts_unknown_voice_falls_back_to_gtts
    (B : Backends) (text voiceModel : String) (bytes : List Nat)
    (hvm : voiceModel ≠ "openai") (hg : B.gtts text 0 = Except.ok bytes) :
    text_to_speech B text voiceModel = Except.ok (audioDataUri bytes)
      ∧ text_to_speech B text voiceModel = text_to_speech B text "default" := by
  have h1 : text_to_speech B text voiceModel = Except.ok (audioDataUri bytes) :=
    retry3_ok_first (text_to_speech_attempt B text voiceModel) (audioDataUri bytes)
      (by simp [text_to_speech_attempt, hvm, hg])
  have h2 : text_to_speech B text "default" = Except.ok (audioDataUri bytes) :=
    retry3_ok_first (text_to_speech_attempt B text "default") (audioDataUri bytes)
      (by simp [text_to_speech_attempt, hg])
  exact ⟨h1, h1.trans h2.symm⟩

/-- Witness for C10: an arbitrary unknown voice model is served by the
gTTS branch. -/
theorem tts_fallback_witness :
    text_to_speech okBackends "hello" "robotic_v2" = Except.ok (audioDataUri [88, 89])
      ∧ text_to_speech okBackends "hello" "robotic_v2"
        = text_to_speech okBackends "hello" "default" :=
  tts_unknown_voice_falls_back_to_gtts okBackends "hello" "robotic_v2" [88, 89]
    (by decide) rfl
